import Mathlib

/-!
# Verification of the `bel_enrichment.indra_utils` pipeline

A shallow embedding of `src/bel_enrichment/indra_utils.py`.  Statements,
evidences, graphs and rows are modelled as Lean structures; the external
collaborators (the INDRA retrieval service, `run_preassembly`,
`filter_belief`, and the PyBEL assembler together with its edge
serializer and the `UNQUALIFIED_EDGES` constant) are parameters of the
embedded functions.  Python exceptions are modelled with an explicit
error type, machine floats with rationals, and Python's `None` for
string-valued fields with `Option String`.
-/

namespace BelEnrichment

/-- Model of Python string truthiness for an optional string field:
`None` and the empty string are falsy. -/
def truthy : Option String → Bool
  | none => false
  | some s => !(s = "")

/-- Model of `indra.statements.Evidence`: the three fields read by this
module.  Any of them may be `None` in Python, hence `Option String`. -/
structure Evidence where
  pmid : Option String
  text : Option String
  source_api : Option String
deriving DecidableEq, Repr

/-- Model of `indra.statements.Statement`: the fields read by this
module (`uuid`, `belief`, `evidence`).  The float `belief` is modelled
as a rational. -/
structure Statement where
  uuid : String
  belief : ℚ
  evidence : List Evidence
deriving DecidableEq, Repr

/-- One edge of a PyBEL graph, as consumed by this module: the relation
(`data[RELATION]`), the two annotation values read from
`data[ANNOTATIONS]`, the citation identifier
(`data[CITATION][CITATION_IDENTIFIER]`), the evidence text
(`data[EVIDENCE]`), and the text produced for this edge by the external
serializer `graph.edge_to_bel(u, v, data, sep='\t', use_identifiers=True)`,
recorded here as the field `bel`. -/
structure Edge where
  relation : String
  source_hash : String
  source_api : String
  citation_identifier : String
  evidence : String
  bel : String
deriving DecidableEq, Repr

/-- Model of `pybel.BELGraph` as consumed by this module: the list
produced by `graph.edges(data=True)`, each entry paired with its
serialized text (see `Edge`). -/
structure BELGraph where
  edges : List Edge
deriving DecidableEq, Repr

/-- Model of a Python exception escaping the external assembler:
either an `AttributeError` or any other exception (with its type name
and message). -/
inductive PyErr where
  | attributeError (msg : String)
  | otherError (ty msg : String)
deriving DecidableEq, Repr

/-- `Row`: the namedtuple
`Row = namedtuple('Row', ['uuid', 'evidence_source_hash', 'belief', 'pmid', 'evidence', 'api', 'bel'])`. -/
structure Row where
  uuid : String
  evidence_source_hash : String
  belief : ℚ
  pmid : String
  evidence : String
  api : String
  bel : String
deriving DecidableEq, Repr

/-- `NO_EVIDENCE_TEXT = 'No evidence text.'` -/
def NO_EVIDENCE_TEXT : String := "No evidence text."

/-- `MODIFIED_ASSERTION = 'Modified assertion'` -/
def MODIFIED_ASSERTION : String := "Modified assertion"

/-- `TEXT_BLACKLIST = {NO_EVIDENCE_TEXT, MODIFIED_ASSERTION}` (a Python
set, modelled as a list with membership). -/
def TEXT_BLACKLIST : List String := [NO_EVIDENCE_TEXT, MODIFIED_ASSERTION]

/-- `SOURCE_BLACKLIST = {'bel', 'signor'}` -/
def SOURCE_BLACKLIST : List String := ["bel", "signor"]

/-- `SUBSTRING_BLACKLIST = {'CHEBI', 'PUBCHEM', 'act(bp('}` -/
def SUBSTRING_BLACKLIST : List String := ["CHEBI", "PUBCHEM", "act(bp("]

/-- The fixed header row written by `print_statements`. -/
def header : List String :=
  ["INDRA UUID", "Belief", "PMID", "Evidence", "API", "Subject", "Predicate", "Object"]

/-- `_keep_evidence(evidence)`: the evidence filter.  Python's chained
`and` over truthiness tests, evaluated as a boolean. -/
def _keep_evidence (evidence : Evidence) : Bool :=
  truthy evidence.pmid &&
  truthy evidence.text &&
  !(TEXT_BLACKLIST.contains (evidence.text.getD "")) &&
  truthy evidence.source_api &&
  !(SOURCE_BLACKLIST.contains (evidence.source_api.getD ""))

/-- Auxiliary recursion for Python's substring test `needle in hay`:
walk down the haystack and test a prefix at every position. -/
def contains_aux (needle : List Char) : List Char → Bool
  | [] => needle.isPrefixOf []
  | c :: rest => needle.isPrefixOf (c :: rest) || contains_aux needle rest

/-- Python's `needle in hay` on strings: case-sensitive substring test. -/
def str_contains (hay needle : String) : Bool :=
  contains_aux needle.toList hay.toList

/-- Round a rational to the nearest integer, ties to the even integer:
the rounding mode of Python 3's built-in `round`. -/
def round_half_even (q : ℚ) : ℤ :=
  let f : ℤ := ⌊q⌋
  let frac : ℚ := q - f
  if frac < 1/2 then f
  else if 1/2 < frac then f + 1
  else if f % 2 = 0 then f else f + 1

/-- Python's `round(x, 2)`: round to two decimal places (floats modelled
as rationals). -/
def round2 (q : ℚ) : ℚ :=
  (round_half_even (100 * q) : ℚ) / 100

/-- `get_graph_from_statement(statement)`: run the external assembler
(`PybelAssembler([statement]).make_model()`, the parameter `make_model`);
an `AttributeError` is caught and replaced by the empty graph
(`BELGraph()`), every other exception propagates. -/
def get_graph_from_statement (make_model : Statement → Except PyErr BELGraph)
    (statement : Statement) : Except PyErr BELGraph :=
  match make_model statement with
  | .error (.attributeError _) => .ok { edges := [] }
  | .error e => .error e
  | .ok graph => .ok graph

/-- The `Row(...)` construction inside `_get_rows_from_statement`: the
statement contributes `uuid` and `round(belief, 2)`, the edge contributes
the source hash, citation identifier, evidence text, source api and the
serialized text. -/
def mk_row (statement : Statement) (e : Edge) : Row :=
  { uuid := statement.uuid
    evidence_source_hash := e.source_hash
    belief := round2 statement.belief
    pmid := e.citation_identifier
    evidence := e.evidence
    api := e.source_api
    bel := e.bel }

/-- The `for u, v, data in graph.edges(data=True)` loop of
`_get_rows_from_statement`: skip edges whose relation is in the external
`UNQUALIFIED_EDGES` constant (the parameter `unqualified_edges`), skip
edges whose serialized text contains a blacklisted substring, and yield
one `Row` for every other edge, in edge order. -/
def rows_of_edges (unqualified_edges : List String) (statement : Statement) :
    List Edge → List Row
  | [] => []
  | e :: es =>
    if unqualified_edges.contains e.relation then
      rows_of_edges unqualified_edges statement es
    else if SUBSTRING_BLACKLIST.any (fun s => str_contains e.bel s) then
      rows_of_edges unqualified_edges statement es
    else
      mk_row statement e :: rows_of_edges unqualified_edges statement es

/-- `_get_rows_from_statement(statement)`: build the graph via
`get_graph_from_statement` and iterate over its edges (`rows_of_edges`).
An exception escaping the graph construction propagates. -/
def _get_rows_from_statement (make_model : Statement → Except PyErr BELGraph)
    (unqualified_edges : List String) (statement : Statement) :
    Except PyErr (List Row) :=
  match get_graph_from_statement make_model statement with
  | .error e => .error e
  | .ok graph => .ok (rows_of_edges unqualified_edges statement graph.edges)

/-- `get_rows_from_statement(statement, duplicates, keep_only_pmid)`.
The result records, in order: the statement as mutated by the call
(Python mutates `statement.evidence` in place), the produced rows (or
the propagated exception), and the number of times graph assembly
(`_get_rows_from_statement`, hence `get_graph_from_statement`) was
invoked on the statement. -/
def get_rows_from_statement (make_model : Statement → Except PyErr BELGraph)
    (unqualified_edges : List String) (statement : Statement)
    (duplicates : Bool) (keep_only_pmid : Option String) :
    Statement × Except PyErr (List Row) × Nat :=
  let stmt1 : Statement :=
    { statement with evidence := statement.evidence.filter _keep_evidence }
  if stmt1.evidence.length = 0 then
    (stmt1, .ok [], 0)
  else
    let stmt2 : Statement :=
      match keep_only_pmid with
      | none => stmt1
      | some p =>
        { stmt1 with evidence := stmt1.evidence.filter (fun e => e.pmid = some p) }
    let stmt3 : Statement :=
      if duplicates then stmt2
      else { stmt2 with evidence := stmt2.evidence.take 1 }
    (stmt3, _get_rows_from_statement make_model unqualified_edges stmt3, 1)

/-- `get_rows_from_statements(statements, duplicates, keep_only_pmid)`:
`yield from get_rows_from_statement(...)` for each statement in order;
an exception raised while producing one statement's rows aborts the
whole iteration. -/
def get_rows_from_statements (make_model : Statement → Except PyErr BELGraph)
    (unqualified_edges : List String) (statements : List Statement)
    (duplicates : Bool) (keep_only_pmid : Option String) :
    Except PyErr (List Row) :=
  match statements with
  | [] => .ok []
  | s :: rest =>
    match (get_rows_from_statement make_model unqualified_edges s duplicates keep_only_pmid).2.1 with
    | .error e => .error e
    | .ok rows =>
      match get_rows_from_statements make_model unqualified_edges rest duplicates keep_only_pmid with
      | .error e => .error e
      | .ok more => .ok (rows ++ more)

/-- `sep = sep or '\t'`: a falsy separator (`None` or the empty string)
is replaced by a tab. -/
def effective_sep : Option String → String
  | none => "\t"
  | some s => if s = "" then "\t" else s

/-- Rendering of the rounded belief number in an output line (the model
of Python's `str` applied to the stored number). -/
def beliefStr (q : ℚ) : String := toString q

/-- The field sequence of one printed row: `print(*row, sep=sep)` prints
the namedtuple's fields in declaration order. -/
def rowFields (r : Row) : List String :=
  [r.uuid, r.evidence_source_hash, beliefStr r.belief, r.pmid, r.evidence, r.api, r.bel]

/-- One data line of the output: the row's fields joined by the
separator. -/
def dataLine (sep : String) (r : Row) : String :=
  String.intercalate sep (rowFields r)

/-- Lines 143–146 of `print_statements`: run the external preassembly,
then, when a minimum belief is configured, the external belief filter. -/
def preprocess (run_preassembly : List Statement → List Statement)
    (filter_belief : List Statement → ℚ → List Statement)
    (minimum_belief : Option ℚ) (statements : List Statement) : List Statement :=
  let statements := run_preassembly statements
  match minimum_belief with
  | none => statements
  | some b => filter_belief statements b

/-- Python's `rows[:limit]` for an integer `limit` (negative limits drop
elements from the end). -/
def py_take (n : ℤ) (l : List α) : List α :=
  if 0 ≤ n then l.take n.toNat else l.take (l.length - n.natAbs)

/-- The comparison induced by `sorted(rows, key=attrgetter('uuid', 'pmid'))`:
ascending lexicographic order on the key tuple `(uuid, pmid)`. -/
def rowLe (a b : Row) : Prop :=
  a.uuid < b.uuid ∨ (a.uuid = b.uuid ∧ a.pmid ≤ b.pmid)

/-- The sort key tuple `attrgetter('uuid', 'pmid')(row)`. -/
def row_key (r : Row) : String × String := (r.uuid, r.pmid)

instance : DecidableRel rowLe := fun a b => by
  unfold rowLe
  infer_instance

instance : IsTotal Row rowLe where
  total a b := by
    unfold rowLe
    rcases lt_trichotomy a.uuid b.uuid with h | h | h
    · exact Or.inl (Or.inl h)
    · rcases le_total a.pmid b.pmid with h' | h'
      · exact Or.inl (Or.inr ⟨h, h'⟩)
      · exact Or.inr (Or.inr ⟨h.symm, h'⟩)
    · exact Or.inr (Or.inl h)

instance : IsTrans Row rowLe where
  trans a b c hab hbc := by
    unfold rowLe at *
    rcases hab with h1 | ⟨h1, h1'⟩ <;> rcases hbc with h2 | ⟨h2, h2'⟩
    · exact Or.inl (h1.trans h2)
    · exact Or.inl (h2 ▸ h1)
    · exact Or.inl (h1 ▸ h2)
    · exact Or.inr ⟨h1.trans h2, h1'.trans h2'⟩

/-- `print_statements(statements, file, sep, limit, duplicates,
keep_only_pmid, sort_attrs, minimum_belief)`.  The external collaborators
(`make_model`, `UNQUALIFIED_EDGES`, `run_preassembly`, `filter_belief`)
and the comparison induced by `key=attrgetter(*sort_attrs)` (`sort_le`)
are parameters.  The result is the list of lines printed to the output
stream, paired with the exception that aborted the run, if any (the
header line is printed before any processing, so it is present even when
an exception escapes).  `sorted` is Python's stable ascending sort,
modelled by the stable `List.insertionSort`. -/
def print_statements (make_model : Statement → Except PyErr BELGraph)
    (unqualified_edges : List String)
    (run_preassembly : List Statement → List Statement)
    (filter_belief : List Statement → ℚ → List Statement)
    (statements : List Statement)
    (sep : Option String) (limit : Option ℤ)
    (duplicates : Bool) (keep_only_pmid : Option String)
    (sort_le : Row → Row → Prop) [DecidableRel sort_le]
    (minimum_belief : Option ℚ) : List String × Option PyErr :=
  let sep := effective_sep sep
  let headerLine := String.intercalate sep header
  let statements := preprocess run_preassembly filter_belief minimum_belief statements
  match get_rows_from_statements make_model unqualified_edges statements duplicates keep_only_pmid with
  | .error e => ([headerLine], some e)
  | .ok rows =>
    let rows := List.insertionSort sort_le rows
    let rows :=
      match limit with
      | none => rows
      | some n => py_take n rows
    (headerLine :: rows.map (dataLine sep), none)

/-- The filter applied to a statement's evidence list when
`keep_only_pmid` is set (lines 186–191): no-op when unset, otherwise
keep exactly the evidences whose `pmid` equals the configured value. -/
def pmid_filtered (keep_only_pmid : Option String) (evs : List Evidence) : List Evidence :=
  match keep_only_pmid with
  | none => evs
  | some p => evs.filter (fun e => e.pmid = some p)

/-- An edge survives the row-generation filters when its relation is not
an unqualified relation kind and its serialized text contains none of
the blacklisted substrings (as case-sensitive substrings). -/
def edge_qualifies (unqualified_edges : List String) (e : Edge) : Prop :=
  e.relation ∉ unqualified_edges ∧
  ∀ s ∈ SUBSTRING_BLACKLIST, ¬ s.toList <:+: e.bel.toList

instance (unqualified_edges : List String) (e : Edge) :
    Decidable (edge_qualifies unqualified_edges e) := by
  unfold edge_qualifies
  infer_instance

/-- Concrete statement used for the C2 analysis. -/
def stC2 : Statement :=
  { uuid := "X", belief := 19/20,
    evidence := [{ pmid := some "111", text := some "valid text",
                   source_api := some "reach" }] }

/-- Concrete edge used for the C2 analysis. -/
def eC2 : Edge :=
  { relation := "increases", source_hash := "h123", source_api := "reach",
    citation_identifier := "111", evidence := "valid text",
    bel := "p(HGNC:1)\tincreases\tp(HGNC:2)" }

/-- Concrete statement used for the C8 witness: its belief is
0.8333... -/
def stC8 : Statement :=
  { uuid := "Y", belief := 5/6,
    evidence := [{ pmid := some "222", text := some "evidence text",
                   source_api := some "sparser" }] }

/-- Concrete edge used for the C8 witness. -/
def eC8 : Edge :=
  { relation := "increases", source_hash := "h8", source_api := "sparser",
    citation_identifier := "222", evidence := "evidence text",
    bel := "p(HGNC:3)\tincreases\tp(HGNC:4)" }

/-- First concrete statement for the C6 witness (uuid `"b"`, so it sorts
second). -/
def stC6a : Statement :=
  { uuid := "b", belief := 1,
    evidence := [{ pmid := some "1", text := some "ta",
                   source_api := some "reach" }] }

/-- Second concrete statement for the C6 witness (uuid `"a"`, so it
sorts first). -/
def stC6b : Statement :=
  { uuid := "a", belief := 1,
    evidence := [{ pmid := some "1", text := some "tb",
                   source_api := some "reach" }] }

/-- Concrete edge for the C6 witness. -/
def eC6 : Edge :=
  { relation := "increases", source_hash := "h6", source_api := "trips",
    citation_identifier := "9", evidence := "txt",
    bel := "p(A)\tincreases\tp(B)" }

/-- `contains_aux` decides the infix relation on character lists. -/
theorem contains_aux_iff (needle : List Char) (hay : List Char) :
    contains_aux needle hay = true ↔ needle <:+: hay := by
  induction hay with
  | nil =>
    simp [contains_aux]
  | cons c rest ih =>
    simp [contains_aux, List.infix_cons_iff, ih]

/-- `str_contains` decides the infix relation on the underlying
character lists. -/
theorem str_contains_iff (hay needle : String) :
    str_contains hay needle = true ↔ needle.toList <:+: hay.toList :=
  contains_aux_iff needle.toList hay.toList

/-- The boolean guard combination of the edge loop decides
`edge_qualifies`. -/
theorem edge_qualifies_iff (unqualified_edges : List String) (e : Edge) :
    ((!(unqualified_edges.contains e.relation)) &&
      !(SUBSTRING_BLACKLIST.any (fun s => str_contains e.bel s))) = true ↔
    edge_qualifies unqualified_edges e := by
  simp [edge_qualifies, str_contains_iff]

theorem decide_edge_qualifies (unqualified_edges : List String) (e : Edge) :
    decide (edge_qualifies unqualified_edges e)
      = ((!(unqualified_edges.contains e.relation)) &&
         !(SUBSTRING_BLACKLIST.any (fun s => str_contains e.bel s))) := by
  rw [Bool.eq_iff_iff, decide_eq_true_iff]
  exact (edge_qualifies_iff unqualified_edges e).symm

/-- The edge loop produces exactly one row per qualifying edge, in edge
order. -/
theorem rows_of_edges_eq (unqualified_edges : List String) (st : Statement)
    (es : List Edge) :
    rows_of_edges unqualified_edges st es =
      (es.filter (fun e => decide (edge_qualifies unqualified_edges e))).map (mk_row st) := by
  induction es with
  | nil => rfl
  | cons e es ih =>
    simp only [rows_of_edges, List.filter_cons]
    rw [decide_edge_qualifies]
    cases h1 : unqualified_edges.contains e.relation <;>
      cases h2 : SUBSTRING_BLACKLIST.any (fun s => str_contains e.bel s) <;>
      simp [h1, h2, ih]

/-- Membership in the edge loop's output. -/
theorem mem_rows_of_edges (unqualified_edges : List String) (st : Statement)
    (es : List Edge) (r : Row) :
    r ∈ rows_of_edges unqualified_edges st es ↔
      ∃ e ∈ es, edge_qualifies unqualified_edges e ∧ r = mk_row st e := by
  rw [rows_of_edges_eq]
  simp only [List.mem_map, List.mem_filter, decide_eq_true_iff]
  constructor
  · rintro ⟨e, ⟨he, hq⟩, rfl⟩
    exact ⟨e, he, hq, rfl⟩
  · rintro ⟨e, he, hq, rfl⟩
    exact ⟨e, ⟨he, hq⟩, rfl⟩

/-- Round-half-to-even lands within 1/2 of its argument. -/
theorem abs_round_half_even_sub_le (q : ℚ) :
    |((round_half_even q : ℤ) : ℚ) - q| ≤ 1/2 := by
  have h1 : ((⌊q⌋ : ℤ) : ℚ) ≤ q := Int.floor_le q
  have h2 : q < (⌊q⌋ : ℚ) + 1 := Int.lt_floor_add_one q
  unfold round_half_even
  simp only []
  split_ifs with hf1 hf2 hf3 <;> (rw [abs_le]; push_cast; constructor <;> linarith)

/-- Rounding to two decimal places lands within 1/200 of the input. -/
theorem abs_round2_sub_le (q : ℚ) : |round2 q - q| ≤ 1/200 := by
  have h := abs_round_half_even_sub_le (100 * q)
  unfold round2
  have heq : (round_half_even (100 * q) : ℚ) / 100 - q
      = ((round_half_even (100 * q) : ℚ) - 100 * q) / 100 := by ring
  rw [heq, abs_div, abs_of_pos (by norm_num : (0:ℚ) < 100)]
  rw [div_le_iff₀ (by norm_num : (0:ℚ) < 100)]
  calc |(round_half_even (100 * q) : ℚ) - 100 * q| ≤ 1/2 := h
    _ ≤ 1/200 * 100 := by norm_num

/-- A row produced by the edge loop carries the belief of the statement
it came from, rounded to two decimals. -/
theorem mem_rows_from_statement_belief (make_model : Statement → Except PyErr BELGraph)
    (unqualified_edges : List String) (st : Statement) (rows : List Row) (r : Row)
    (h : _get_rows_from_statement make_model unqualified_edges st = Except.ok rows)
    (hr : r ∈ rows) :
    r.belief = round2 st.belief := by
  unfold _get_rows_from_statement at h
  cases hg : get_graph_from_statement make_model st with
  | error e => rw [hg] at h; cases h
  | ok g =>
    rw [hg] at h
    injection h with h
    subst h
    rcases (mem_rows_of_edges unqualified_edges st g.edges r).mp hr with ⟨e, _, _, rfl⟩
    rfl

/-- C1 — The evidence filter `_keep_evidence` accepts an evidence record
exactly when: its `pmid` is present and truthy, its `text` is present,
truthy and outside the text blacklist
`{"No evidence text.", "Modified assertion"}`, and its `source_api` is
present, truthy and outside the source blacklist `{"bel", "signor"}`.
It is a total (hence pure, never-raising) boolean predicate: absent
(`None`) fields are simply falsy. -/
theorem keep_evidence_iff_spec (e : Evidence) :
    _keep_evidence e = true ↔
      ((∃ p, e.pmid = some p ∧ p ≠ "") ∧
       (∃ t, e.text = some t ∧ t ≠ "" ∧
          t ≠ "No evidence text." ∧ t ≠ "Modified assertion") ∧
       (∃ s, e.source_api = some s ∧ s ≠ "" ∧ s ≠ "bel" ∧ s ≠ "signor")) := by
  obtain ⟨p?, t?, s?⟩ := e
  cases p? <;> cases t? <;> cases s? <;>
    simp [_keep_evidence, truthy, TEXT_BLACKLIST, SOURCE_BLACKLIST,
      NO_EVIDENCE_TEXT, MODIFIED_ASSERTION, and_assoc]

/-- C2 counterexample — the claim omits the `evidence_source_hash`
field: for a concrete emitted row, the printed line is not the
separator-joined `uuid, belief, pmid, evidence, api, bel`; the
namedtuple places `evidence_source_hash` between `uuid` and `belief`. -/
theorem data_line_counterexample :
    rows_of_edges [] stC2 [eC2] = [mk_row stC2 eC2] ∧
    dataLine "\t" (mk_row stC2 eC2)
      ≠ String.intercalate "\t"
          [stC2.uuid, beliefStr (round2 stC2.belief), (mk_row stC2 eC2).pmid,
           (mk_row stC2 eC2).evidence, (mk_row stC2 eC2).api,
           (mk_row stC2 eC2).bel] := by
  refine ⟨rfl, ?_⟩
  have hL : dataLine "\t" (mk_row stC2 eC2)
      = "X\th123\t19/20\t111\tvalid text\treach\tp(HGNC:1)\tincreases\tp(HGNC:2)" := by
    with_unfolding_all rfl
  have hR : String.intercalate "\t"
        [stC2.uuid, beliefStr (round2 stC2.belief), (mk_row stC2 eC2).pmid,
         (mk_row stC2 eC2).evidence, (mk_row stC2 eC2).api, (mk_row stC2 eC2).bel]
      = "X\t19/20\t111\tvalid text\treach\tp(HGNC:1)\tincreases\tp(HGNC:2)" := by
    with_unfolding_all rfl
  rw [hL, hR]
  decide

/-- C2 (amended) — Every data line printed for a row emitted from a
statement consists of the separator-joined fields uuid,
evidence_source_hash, belief (rounded to 2 decimals), pmid, evidence
text, source api, serialized edge — in that order. -/
theorem data_line_field_order (unqualified_edges : List String) (st : Statement)
    (es : List Edge) (sep : String) (r : Row)
    (hr : r ∈ rows_of_edges unqualified_edges st es) :
    dataLine sep r
      = String.intercalate sep
          [st.uuid, r.evidence_source_hash, beliefStr (round2 st.belief),
           r.pmid, r.evidence, r.api, r.bel] := by
  rcases (mem_rows_of_edges unqualified_edges st es r).mp hr with ⟨e, _, _, rfl⟩
  rfl

/-- Witness for the amended C2 at a concrete emitted row. -/
theorem data_line_field_order_witness :
    (mk_row stC2 eC2 ∈ rows_of_edges [] stC2 [eC2]) ∧
    dataLine "\t" (mk_row stC2 eC2)
      = String.intercalate "\t"
          [stC2.uuid, (mk_row stC2 eC2).evidence_source_hash,
           beliefStr (round2 stC2.belief), (mk_row stC2 eC2).pmid,
           (mk_row stC2 eC2).evidence, (mk_row stC2 eC2).api,
           (mk_row stC2 eC2).bel] := by
  have hmem : mk_row stC2 eC2 ∈ rows_of_edges [] stC2 [eC2] :=
    List.mem_singleton_self _
  exact ⟨hmem, data_line_field_order [] stC2 [eC2] "\t" _ hmem⟩

/-- C3 — When every evidence of a statement fails the evidence filter,
`get_rows_from_statement` produces no rows and graph assembly
(`_get_rows_from_statement`, hence `get_graph_from_statement` /
`PybelAssembler`) is never invoked on the statement (the recorded
assembly-invocation count is 0). -/
theorem no_rows_no_assembly_when_filtered_empty
    (make_model : Statement → Except PyErr BELGraph)
    (unqualified_edges : List String) (duplicates : Bool)
    (keep_only_pmid : Option String) (st : Statement)
    (h : st.evidence.filter _keep_evidence = []) :
    get_rows_from_statement make_model unqualified_edges st duplicates keep_only_pmid
      = ({ st with evidence := [] }, Except.ok [], 0) := by
  unfold get_rows_from_statement
  simp [h]

/-- Witness for C3: a statement whose single evidence has the
blacklisted text `"No evidence text."` produces no rows and never
reaches assembly. -/
theorem no_rows_no_assembly_when_filtered_empty_witness :
    (Statement.evidence
        { uuid := "u1", belief := 1,
          evidence := [{ pmid := some "100", text := some "No evidence text.",
                         source_api := some "reach" }] }).filter _keep_evidence = [] ∧
    get_rows_from_statement (fun _ => Except.ok { edges := [] }) []
        { uuid := "u1", belief := 1,
          evidence := [{ pmid := some "100", text := some "No evidence text.",
                         source_api := some "reach" }] } true none
      = ({ uuid := "u1", belief := 1, evidence := [] }, Except.ok [], 0) :=
  ⟨rfl,
   no_rows_no_assembly_when_filtered_empty (fun _ => Except.ok { edges := [] }) []
     true none _ rfl⟩

/-- C4 — With `duplicates=False`, `get_rows_from_statement` mutates only
the statement's evidence list (uuid and belief are unchanged), leaving
at most one entry: the positionally first evidence that survives the
blacklist filter and the optional `keep_only_pmid` filter; and the rows
are computed (by `_get_rows_from_statement`) from exactly that mutated
single-evidence statement. -/
theorem no_duplicates_keeps_first_evidence_only
    (make_model : Statement → Except PyErr BELGraph)
    (unqualified_edges : List String) (keep_only_pmid : Option String)
    (st : Statement) :
    let res := get_rows_from_statement make_model unqualified_edges st false keep_only_pmid
    res.1.uuid = st.uuid ∧
    res.1.belief = st.belief ∧
    res.1.evidence = (pmid_filtered keep_only_pmid (st.evidence.filter _keep_evidence)).take 1 ∧
    res.1.evidence.length ≤ 1 ∧
    res.2.1 = (if (st.evidence.filter _keep_evidence).length = 0 then Except.ok []
               else _get_rows_from_statement make_model unqualified_edges res.1) := by
  unfold get_rows_from_statement
  by_cases h : (st.evidence.filter _keep_evidence).length = 0
  · rw [List.length_eq_zero] at h
    cases keep_only_pmid <;>
      simp [h, pmid_filtered]
  · have h' := h
    rw [List.length_eq_zero] at h'
    cases keep_only_pmid <;>
      simp [h, h', pmid_filtered]

/-- C5 — For a statement assembled into a graph `g`, the edge loop emits
exactly one row per edge of `g` whose relation is not an unqualified
relation kind and whose serialized text contains none of `"CHEBI"`,
`"PUBCHEM"`, `"act(bp("` as a case-sensitive substring, in edge order;
edges whose serialized text contains one of these substrings (or whose
relation is unqualified) contribute no row. -/
theorem rows_per_edge_substring_blacklist (unqualified_edges : List String)
    (st : Statement) (g : BELGraph) :
    _get_rows_from_statement (fun _ => Except.ok g) unqualified_edges st =
      Except.ok
        ((g.edges.filter (fun e => decide (edge_qualifies unqualified_edges e))).map
          (mk_row st)) := by
  unfold _get_rows_from_statement get_graph_from_statement
  simp [rows_of_edges_eq]

/-- C6 — With the default sort key, `print_statements` sorts the
aggregated rows ascending-lexicographically by the key tuple
`(uuid, pmid)` with a stable sort, and when a limit `N ≥ 0` is
configured it writes (after the header) exactly the first
`min N total` rows of the sorted sequence and no others: the output is
the header line followed by the first `N` sorted rows; the sorted
sequence is sorted w.r.t. `rowLe`, is a permutation of the aggregated
rows, preserves the relative order of rows with equal keys (stability),
and the written prefix has length `min N total`. -/
theorem print_statements_sorts_and_limits
    (make_model : Statement → Except PyErr BELGraph)
    (unqualified_edges : List String)
    (run_preassembly : List Statement → List Statement)
    (filter_belief : List Statement → ℚ → List Statement)
    (statements : List Statement) (sep : Option String)
    (duplicates : Bool) (keep_only_pmid : Option String)
    (minimum_belief : Option ℚ) (n : ℕ) (rows : List Row)
    (hrows : get_rows_from_statements make_model unqualified_edges
        (preprocess run_preassembly filter_belief minimum_belief statements)
        duplicates keep_only_pmid = Except.ok rows) :
    print_statements make_model unqualified_edges run_preassembly filter_belief
        statements sep (some (n : ℤ)) duplicates keep_only_pmid rowLe minimum_belief
      = (String.intercalate (effective_sep sep) header ::
          ((List.insertionSort rowLe rows).take n).map (dataLine (effective_sep sep)),
         none) ∧
    List.Sorted rowLe (List.insertionSort rowLe rows) ∧
    List.Perm (List.insertionSort rowLe rows) rows ∧
    (∀ u p : String,
      (List.insertionSort rowLe rows).filter (fun r => decide (row_key r = (u, p)))
        = rows.filter (fun r => decide (row_key r = (u, p)))) ∧
    ((List.insertionSort rowLe rows).take n).length = min n rows.length := by
  refine ⟨?_, List.sorted_insertionSort rowLe rows, List.perm_insertionSort rowLe rows,
    ?_, ?_⟩
  · simp [print_statements, hrows, py_take, Int.toNat_natCast]
  · intro u p
    have hall : ∀ a ∈ rows.filter (fun r => decide (row_key r = (u, p))),
        ∀ b ∈ rows.filter (fun r => decide (row_key r = (u, p))), rowLe a b := by
      intro a ha b hb
      have ha' := of_decide_eq_true (List.mem_filter.mp ha).2
      have hb' := of_decide_eq_true (List.mem_filter.mp hb).2
      unfold row_key at ha' hb'
      rw [Prod.mk.injEq] at ha' hb'
      exact Or.inr ⟨ha'.1.trans hb'.1.symm, le_of_eq (ha'.2.trans hb'.2.symm)⟩
    have hpw : (rows.filter (fun r => decide (row_key r = (u, p)))).Pairwise rowLe :=
      List.pairwise_of_forall_mem_list hall
    have h1 : List.Sublist (rows.filter (fun r => decide (row_key r = (u, p))))
        (List.insertionSort rowLe rows) :=
      List.sublist_insertionSort hpw (List.filter_sublist rows)
    have h2 := h1.filter (fun r => decide (row_key r = (u, p)))
    rw [List.filter_eq_self.mpr
      (fun a ha => (List.mem_filter.mp ha).2)] at h2
    have hperm : List.Perm
        ((List.insertionSort rowLe rows).filter (fun r => decide (row_key r = (u, p))))
        (rows.filter (fun r => decide (row_key r = (u, p)))) :=
      (List.perm_insertionSort rowLe rows).filter _
    exact (h2.eq_of_length hperm.length_eq.symm).symm
  · simp [List.length_take, List.length_insertionSort]

/-- Witness for C6: two statements arriving in uuid order `"b", "a"`
with `limit=1` produce, after the header, exactly the single row of the
statement with uuid `"a"`. -/
theorem print_statements_sorts_and_limits_witness :
    (get_rows_from_statements (fun _ => Except.ok { edges := [eC6] }) []
        (preprocess id (fun s _ => s) none [stC6a, stC6b]) true none
      = Except.ok [mk_row stC6a eC6, mk_row stC6b eC6]) ∧
    print_statements (fun _ => Except.ok { edges := [eC6] }) [] id (fun s _ => s)
        [stC6a, stC6b] none (some ((1 : ℕ) : ℤ)) true none rowLe none
      = (String.intercalate (effective_sep none) header ::
          ((List.insertionSort rowLe [mk_row stC6a eC6, mk_row stC6b eC6]).take 1).map
            (dataLine (effective_sep none)), none) ∧
    print_statements (fun _ => Except.ok { edges := [eC6] }) [] id (fun s _ => s)
        [stC6a, stC6b] none (some ((1 : ℕ) : ℤ)) true none rowLe none
      = (["INDRA UUID\tBelief\tPMID\tEvidence\tAPI\tSubject\tPredicate\tObject",
          "a\th6\t1\t9\ttxt\ttrips\tp(A)\tincreases\tp(B)"], none) :=
  ⟨rfl,
   (print_statements_sorts_and_limits (fun _ => Except.ok { edges := [eC6] }) []
      id (fun s _ => s) [stC6a, stC6b] none true none none 1
      [mk_row stC6a eC6, mk_row stC6b eC6] rfl).1,
   by with_unfolding_all rfl⟩

/-- C7 — `get_graph_from_statement` recovers from an `AttributeError`
raised by the external assembler by returning the empty graph, so the
statement contributes zero rows; any other exception propagates
unmodified. -/
theorem assembler_attribute_error_recovered
    (make_model : Statement → Except PyErr BELGraph)
    (unqualified_edges : List String) (st : Statement) :
    (∀ msg, make_model st = Except.error (PyErr.attributeError msg) →
      get_graph_from_statement make_model st = Except.ok { edges := [] } ∧
      _get_rows_from_statement make_model unqualified_edges st = Except.ok []) ∧
    (∀ ty msg, make_model st = Except.error (PyErr.otherError ty msg) →
      get_graph_from_statement make_model st = Except.error (PyErr.otherError ty msg) ∧
      _get_rows_from_statement make_model unqualified_edges st
        = Except.error (PyErr.otherError ty msg)) := by
  constructor
  · intro msg h
    constructor <;> simp [get_graph_from_statement, _get_rows_from_statement, h, rows_of_edges]
  · intro ty msg h
    constructor <;> simp [get_graph_from_statement, _get_rows_from_statement, h]

/-- Witness for C7: a raised `AttributeError` yields the empty graph and
zero rows; a raised `TypeError` propagates. -/
theorem assembler_attribute_error_recovered_witness :
    ((fun _ : Statement => Except.error (ε := PyErr) (α := BELGraph)
        (PyErr.attributeError "boom"))
      { uuid := "u2", belief := 1, evidence := [] }
      = Except.error (PyErr.attributeError "boom")) ∧
    get_graph_from_statement
        (fun _ => Except.error (PyErr.attributeError "boom"))
        { uuid := "u2", belief := 1, evidence := [] }
      = Except.ok { edges := [] } ∧
    get_graph_from_statement
        (fun _ => Except.error (PyErr.otherError "TypeError" "bad"))
        { uuid := "u2", belief := 1, evidence := [] }
      = Except.error (PyErr.otherError "TypeError" "bad") :=
  ⟨rfl,
   ((assembler_attribute_error_recovered
      (fun _ => Except.error (PyErr.attributeError "boom")) []
      { uuid := "u2", belief := 1, evidence := [] }).1 "boom" rfl).1,
   ((assembler_attribute_error_recovered
      (fun _ => Except.error (PyErr.otherError "TypeError" "bad")) []
      { uuid := "u2", belief := 1, evidence := [] }).2 "TypeError" "bad" rfl).1⟩

/-- C8 — Every row emitted for a statement stores, as its belief field,
the statement's belief rounded to exactly two decimal places
(round-half-even, Python's `round(·, 2)`): the stored value is an
integer multiple of 1/100 within 1/200 of the original belief. -/
theorem row_belief_rounded (make_model : Statement → Except PyErr BELGraph)
    (unqualified_edges : List String) (duplicates : Bool)
    (keep_only_pmid : Option String) (st : Statement) (rows : List Row) (r : Row)
    (h : (get_rows_from_statement make_model unqualified_edges st duplicates
            keep_only_pmid).2.1 = Except.ok rows)
    (hr : r ∈ rows) :
    r.belief = round2 st.belief ∧
    (∃ k : ℤ, round2 st.belief = (k : ℚ) / 100) ∧
    |round2 st.belief - st.belief| ≤ 1/200 := by
  refine ⟨?_, ⟨round_half_even (100 * st.belief), rfl⟩, abs_round2_sub_le st.belief⟩
  unfold get_rows_from_statement at h
  by_cases hz : (st.evidence.filter _keep_evidence).length = 0
  · simp [hz] at h
    subst h
    cases hr
  · simp [hz] at h
    cases hkop : keep_only_pmid <;> rw [hkop] at h <;>
      cases hd : duplicates <;> rw [hd] at h <;> simp at h <;>
      (have hb := mem_rows_from_statement_belief _ _ _ _ _ h hr; simpa using hb)

/-- Witness for C8: a statement with belief 5/6 = 0.8333... emits a row
whose belief field is `round2 (5/6) = 0.83`. -/
theorem row_belief_rounded_witness :
    ((get_rows_from_statement (fun _ => Except.ok { edges := [eC8] }) [] stC8
        true none).2.1 = Except.ok [mk_row stC8 eC8]) ∧
    (mk_row stC8 eC8 ∈ [mk_row stC8 eC8]) ∧
    (mk_row stC8 eC8).belief = round2 (5/6) ∧
    round2 (5/6) = 83/100 := by
  refine ⟨rfl, List.mem_singleton_self _, ?_, by with_unfolding_all rfl⟩
  exact (row_belief_rounded (fun _ => Except.ok { edges := [eC8] }) [] true none
    stC8 [mk_row stC8 eC8] (mk_row stC8 eC8) rfl (List.mem_singleton_self _)).1

/-- C9 — A falsy separator argument (`None` or the empty string) is
silently replaced by a tab: `print_statements` produces exactly the
output it produces with an explicit tab separator, for the header and
every data line. -/
theorem falsy_sep_replaced_by_tab (make_model : Statement → Except PyErr BELGraph)
    (unqualified_edges : List String)
    (run_preassembly : List Statement → List Statement)
    (filter_belief : List Statement → ℚ → List Statement)
    (statements : List Statement) (limit : Option ℤ)
    (duplicates : Bool) (keep_only_pmid : Option String)
    (sort_le : Row → Row → Prop) [DecidableRel sort_le]
    (minimum_belief : Option ℚ) :
    print_statements make_model unqualified_edges run_preassembly filter_belief
        statements none limit duplicates keep_only_pmid sort_le minimum_belief
      = print_statements make_model unqualified_edges run_preassembly filter_belief
          statements (some "\t") limit duplicates keep_only_pmid sort_le minimum_belief ∧
    print_statements make_model unqualified_edges run_preassembly filter_belief
        statements (some "") limit duplicates keep_only_pmid sort_le minimum_belief
      = print_statements make_model unqualified_edges run_preassembly filter_belief
          statements (some "\t") limit duplicates keep_only_pmid sort_le minimum_belief := by
  constructor <;> rfl

/-- C10 — When at least one evidence passes the blacklist filter but
none matches the configured `keep_only_pmid`, the statement's evidence
list ends up empty and yet graph assembly is still invoked (count 1):
the emptiness short-circuit runs only before the pmid filter. -/
theorem assembly_invoked_despite_empty_pmid_filter
    (make_model : Statement → Except PyErr BELGraph)
    (unqualified_edges : List String) (duplicates : Bool)
    (st : Statement) (p : String)
    (h1 : st.evidence.filter _keep_evidence ≠ [])
    (h2 : (st.evidence.filter _keep_evidence).filter (fun e => e.pmid = some p) = []) :
    let res := get_rows_from_statement make_model unqualified_edges st duplicates (some p)
    res.1.evidence = [] ∧
    res.2.2 = 1 ∧
    res.2.1 = _get_rows_from_statement make_model unqualified_edges res.1 := by
  rw [← List.length_eq_zero] at h2
  unfold get_rows_from_statement
  have h1' : ¬ (st.evidence.filter _keep_evidence).length = 0 := by
    rw [List.length_eq_zero]; exact h1
  cases duplicates <;> simp [h1', List.length_eq_zero.mp h2]

/-- Witness for C10: one valid evidence from pmid 100, filter configured
for pmid 200 — the evidence list is emptied, yet assembly still runs. -/
theorem assembly_invoked_despite_empty_pmid_filter_witness :
    (Statement.evidence
        { uuid := "u3", belief := 1,
          evidence := [{ pmid := some "100", text := some "some text",
                         source_api := some "reach" }] }).filter _keep_evidence ≠ [] ∧
    ((Statement.evidence
        { uuid := "u3", belief := 1,
          evidence := [{ pmid := some "100", text := some "some text",
                         source_api := some "reach" }] }).filter
        _keep_evidence).filter (fun e => e.pmid = some "200") = [] ∧
    (get_rows_from_statement (fun _ => Except.ok { edges := [] }) []
        { uuid := "u3", belief := 1,
          evidence := [{ pmid := some "100", text := some "some text",
                         source_api := some "reach" }] } false (some "200")).1.evidence = [] ∧
    (get_rows_from_statement (fun _ => Except.ok { edges := [] }) []
        { uuid := "u3", belief := 1,
          evidence := [{ pmid := some "100", text := some "some text",
                         source_api := some "reach" }] } false (some "200")).2.2 = 1 :=
  ⟨by decide, rfl,
   (assembly_invoked_despite_empty_pmid_filter (fun _ => Except.ok { edges := [] }) []
      false
      { uuid := "u3", belief := 1,
        evidence := [{ pmid := some "100", text := some "some text",
                       source_api := some "reach" }] } "200" (by decide) rfl).1,
   (assembly_invoked_despite_empty_pmid_filter (fun _ => Except.ok { edges := [] }) []
      false
      { uuid := "u3", belief := 1,
        evidence := [{ pmid := some "100", text := some "some text",
                       source_api := some "reach" }] } "200" (by decide) rfl).2.1⟩

end BelEnrichment
